import Mathlib

/-!
Shallow embedding of the SSI tamper-prevention kit: the governance service
(src/src/governance-service/index.js) and the verification gateway with its
transparency-log backend (src/src/verification-gateway/index.js).

Redis is modelled as an association list from keys to records; a record is
stored together with the TTL option it was written with (SET with EX n is
some n, SET without EX is none).  Ed25519 is idealized: a signature object
carries exactly the public key it verifies under and the message bytes it
signs, so cryptoVerify pub msg s holds precisely when s was produced for
that key and that message.
-/

/-- Association-list lookup, the model of redisClient.get on a keyed record. -/
def lookupKey {α : Type} : List (String × α) → String → Option α
  | [], _ => none
  | (k, v) :: rest, key => if k = key then some v else lookupKey rest key

/-- Association-list update, the model of redisClient.set on a keyed record. -/
def setKey {α : Type} : List (String × α) → String → α → List (String × α)
  | [], key, v => [(key, v)]
  | (k, w) :: rest, key, v =>
    if k = key then (key, v) :: rest else (k, w) :: setKey rest key v

namespace Governance

/-- Proposal status literals written by the governance service.  The code
writes PENDING and EXECUTED; EXPIRED belongs to the data model (expiry is
otherwise implicit through the Redis TTL). -/
inductive Status where
  | PENDING
  | EXECUTED
  | EXPIRED
deriving DecidableEq, Repr

/-- The proposal record persisted at key proposal:id (governance index.js,
POST /proposals).  The payload field holds the canonical JSON serialization
of the opaque payload, so JSON.stringify of the payload is the field itself. -/
structure Proposal where
  id : String
  action : String
  payload : String
  requestor : String
  approvals : List String
  status : Status
deriving DecidableEq, Repr

/-- A stored proposal together with the TTL its last write used. -/
structure Entry where
  prop : Proposal
  ttl : Option Nat
deriving DecidableEq, Repr

/-- The Redis keyspace restricted to proposal records. -/
abbrev Store := List (String × Entry)

/-- Idealized Ed25519 signature: it determines the public key it verifies
under and the exact message it signs. -/
structure Sig where
  key : String
  msg : String
deriving DecidableEq, Repr

/-- Produce the signature of a message under the private key matching pub. -/
def sign (pub msg : String) : Sig := ⟨pub, msg⟩

/-- Model of crypto.verify in the approve handler. -/
def cryptoVerify (pub message : String) (s : Sig) : Bool :=
  s.key == pub && s.msg == message

/-- Canonical message of the approve handler: id, action and the JSON of the
payload joined by colons (governance index.js line 97). -/
def canonicalMessage (id action payloadJson : String) : String :=
  id ++ ":" ++ action ++ ":" ++ payloadJson

/-- HTTP-level outcomes of POST /proposals/:id/approve.  NotFound is the 404,
AlreadyFinalized the 400 Finalized response, DuplicateVote the 409 Voted
response, InvalidSignature the 401 Bad Sig response, and InternalError the
centralized 500 handler reached through a thrown exception. -/
inductive VoteError where
  | NotFound
  | AlreadyFinalized
  | DuplicateVote
  | InvalidSignature
  | InternalError
deriving DecidableEq, Repr

/-- Externally visible effects of one approve request, in program order: an
outbound executor call (axios.post to the issuer revocation endpoint) or a
Redis write of the proposal record. -/
inductive Event where
  | execCall (action payloadJson : String)
  | storeWrite (id : String) (e : Entry)
deriving DecidableEq, Repr

/-- Whether an effect is an Action Executor invocation. -/
def Event.isExecCall : Event → Bool
  | execCall _ _ => true
  | storeWrite _ _ => false

/-- The deployment threshold k (governance index.js line 21). -/
def THRESHOLD : Nat := 3

/-- Result of running the approve handler on the snapshot its GET returned:
the record the final SET writes back (none when the handler returns early or
throws), the outbound effects in program order, and the HTTP outcome. -/
structure StepResult where
  write : Option Entry
  events : List Event
  outcome : Except VoteError Status
deriving Repr

/-- The approve handler body (governance index.js lines 89 to 121) applied to
the snapshot read at line 89.  Checks happen in source order: missing record,
non-PENDING status, duplicate validator, validator key lookup (an unknown id
throws a TypeError caught by the 500 handler), signature verification; then
the vote is pushed, the executor is called when the threshold is reached and
the action is REVOKE_CREDENTIAL (a failing call throws before any write), and
the record is written back without a TTL. -/
def voteOnSnapshot (validators : List (String × String)) (execOk : Bool)
    (snap : Option Entry) (id validatorId : String) (signature : Sig) :
    StepResult :=
  match snap with
  | none => ⟨none, [], .error .NotFound⟩
  | some entry =>
    let p := entry.prop
    if p.status ≠ Status.PENDING then ⟨none, [], .error .AlreadyFinalized⟩
    else if validatorId ∈ p.approvals then ⟨none, [], .error .DuplicateVote⟩
    else
      match lookupKey validators validatorId with
      | none => ⟨none, [], .error .InternalError⟩
      | some pub =>
        if cryptoVerify pub (canonicalMessage id p.action p.payload) signature then
          let approvals' := p.approvals ++ [validatorId]
          if THRESHOLD ≤ approvals'.length then
            if p.action = "REVOKE_CREDENTIAL" then
              if execOk then
                let e' : Entry :=
                  ⟨{ p with approvals := approvals', status := Status.EXECUTED }, none⟩
                ⟨some e', [Event.execCall p.action p.payload, Event.storeWrite id e'],
                  .ok Status.EXECUTED⟩
              else
                ⟨none, [Event.execCall p.action p.payload], .error .InternalError⟩
            else
              let e' : Entry :=
                ⟨{ p with approvals := approvals', status := Status.EXECUTED }, none⟩
              ⟨some e', [Event.storeWrite id e'], .ok Status.EXECUTED⟩
          else
            let e' : Entry := ⟨{ p with approvals := approvals' }, none⟩
            ⟨some e', [Event.storeWrite id e'], .ok Status.PENDING⟩
        else ⟨none, [], .error .InvalidSignature⟩

/-- Apply the handler's write-back, when it performed one. -/
def applyWrite (store : Store) (id : String) : Option Entry → Store
  | none => store
  | some e => setKey store id e

/-- Result of a whole approve request against the shared store. -/
structure VoteResult where
  store : Store
  events : List Event
  outcome : Except VoteError Status
deriving Repr

/-- POST /proposals/:id/approve run without interference: GET, handler body,
SET. -/
def castVote (validators : List (String × String)) (execOk : Bool)
    (store : Store) (id validatorId : String) (signature : Sig) : VoteResult :=
  let r := voteOnSnapshot validators execOk (lookupKey store id) id validatorId signature
  ⟨applyWrite store id r.write, r.events, r.outcome⟩

/-- POST /proposals (governance index.js lines 67 to 81): a fresh PENDING
record with an empty approval list, written with EX 86400. -/
def createProposal (store : Store) (id action payloadJson requestor : String) : Store :=
  setKey store id ⟨⟨id, action, payloadJson, requestor, [], Status.PENDING⟩, some 86400⟩

/-- Two concurrent approve requests whose GETs both complete before either
SET: each handler computes on the same snapshot and the two writes then land
in order.  This interleaving is possible because the handler awaits between
its GET of the record and its SET. -/
def interleavedVotes (validators : List (String × String)) (execOk : Bool)
    (store : Store) (id v1 v2 : String) (s1 s2 : Sig) : Store :=
  let r1 := voteOnSnapshot validators execOk (lookupKey store id) id v1 s1
  let r2 := voteOnSnapshot validators execOk (lookupKey store id) id v2 s2
  applyWrite (applyWrite store id r1.write) id r2.write

end Governance

namespace Gateway

/-- Session record stored at key session:exchangeId by POST /verify. -/
structure Session where
  status : String
  requestor : String
deriving DecidableEq, Repr

/-- One entry of the transparency log (Redis list audit:transparency_log). -/
structure AuditEntry where
  uuid : String
  timestamp : String
  body : String
deriving DecidableEq, Repr

/-- Transparency-log endpoint POST /api/v1/log/entries: a payload without a
spec field is rejected with 400 and no index; otherwise the entry is rPushed
and the new list length is returned as logIndex.  rPush is a single atomic
Redis command, so concurrent appends serialize into some order of these
steps. -/
def logEntries (log : List AuditEntry) (spec : Option String) (uuid ts : String) :
    List AuditEntry × Option Nat :=
  match spec with
  | none => (log, none)
  | some body =>
    let log' := log ++ [⟨uuid, ts, body⟩]
    (log', some log'.length)

/-- Repeated appends of valid payloads through the transparency-log endpoint,
collecting the logIndex of each receipt (0 stands for the unreachable
rejected case). -/
def appendSeq : List AuditEntry → List (String × String × String) →
    List AuditEntry × List Nat
  | log, [] => (log, [])
  | log, (u, t, b) :: rest =>
    let step := logEntries log (some b) u t
    let i := match step.2 with
      | some n => n
      | none => 0
    let r := appendSeq step.1 rest
    (r.1, i :: r.2)

/-- Webhook handler POST /webhooks/topic/present_proof/ of the gateway,
combined with handleSuccessfulVerification: when the event state is verified,
a session record exists for the exchange id and the event asserts success,
one audit entry is appended through the transparency log and the session
status is overwritten to VERIFIED_AND_LOGGED.  The code never checks that the
stored status is still REQUEST_SENT. -/
def webhook (sessions : List (String × Session)) (log : List AuditEntry)
    (state exchangeId : String) (verified : Bool) (uuid ts body : String) :
    List (String × Session) × List AuditEntry :=
  if state = "verified" then
    match lookupKey sessions exchangeId with
    | some s =>
      if verified then
        (setKey sessions exchangeId { s with status := "VERIFIED_AND_LOGGED" },
         (logEntries log (some body) uuid ts).1)
      else (sessions, log)
    | none => (sessions, log)
  else (sessions, log)

end Gateway

namespace Governance

theorem lookupKey_setKey_self {α : Type} (l : List (String × α)) (k : String) (v : α) :
    lookupKey (setKey l k v) k = some v := by
  induction l with
  | nil => simp [setKey, lookupKey]
  | cons hd tl ih =>
    obtain ⟨k1, v1⟩ := hd
    by_cases h : k1 = k <;> simp [setKey, lookupKey, h, ih]

theorem castVote_outcome (validators : List (String × String)) (execOk : Bool)
    (store : Store) (id vid : String) (s : Sig) :
    (castVote validators execOk store id vid s).outcome =
      (voteOnSnapshot validators execOk (lookupKey store id) id vid s).outcome := rfl

theorem castVote_store (validators : List (String × String)) (execOk : Bool)
    (store : Store) (id vid : String) (s : Sig) :
    (castVote validators execOk store id vid s).store =
      applyWrite store id (voteOnSnapshot validators execOk (lookupKey store id) id vid s).write :=
  rfl

theorem castVote_events (validators : List (String × String)) (execOk : Bool)
    (store : Store) (id vid : String) (s : Sig) :
    (castVote validators execOk store id vid s).events =
      (voteOnSnapshot validators execOk (lookupKey store id) id vid s).events := rfl

end Governance

namespace Governance

/-- Characterization of one approve request on an existing record: either the
handler performs no write and answers an error, or it writes back exactly the
old record with the caller appended to the approval list, no TTL, and a status
matching the reported outcome; a write only happens for a caller not already
in the approval list of a PENDING record. -/
theorem voteOnSnapshot_cases (validators : List (String × String)) (execOk : Bool)
    (entry : Entry) (id vid : String) (s : Sig) :
    ((voteOnSnapshot validators execOk (some entry) id vid s).write = none ∧
      ∃ err, (voteOnSnapshot validators execOk (some entry) id vid s).outcome = .error err) ∨
    (∃ st, (voteOnSnapshot validators execOk (some entry) id vid s).write =
        some ⟨{ entry.prop with approvals := entry.prop.approvals ++ [vid], status := st },
          none⟩ ∧
      (voteOnSnapshot validators execOk (some entry) id vid s).outcome = .ok st ∧
      vid ∉ entry.prop.approvals ∧ entry.prop.status = Status.PENDING) := by
  obtain ⟨⟨pid, pact, ppl, preq, papp, pstat⟩, pttl⟩ := entry
  by_cases h1 : pstat = Status.PENDING
  case neg => left; simp [voteOnSnapshot, h1]
  subst h1
  by_cases h2 : vid ∈ papp
  · left; simp [voteOnSnapshot, h2]
  cases hv : lookupKey validators vid with
  | none => left; simp [voteOnSnapshot, h2, hv]
  | some pub =>
    by_cases h3 : cryptoVerify pub (canonicalMessage id pact ppl) s = true
    case neg => left; simp [voteOnSnapshot, h2, hv, h3]
    by_cases h4 : THRESHOLD ≤ papp.length + 1
    case neg =>
      right
      refine ⟨Status.PENDING, ?_, ?_, h2, rfl⟩ <;>
        simp [voteOnSnapshot, h2, hv, h3, h4]
    by_cases h5 : pact = "REVOKE_CREDENTIAL"
    · subst h5
      cases execOk with
      | false => left; simp [voteOnSnapshot, h2, hv, h3, h4]
      | true =>
        right
        refine ⟨Status.EXECUTED, ?_, ?_, h2, rfl⟩ <;>
          simp [voteOnSnapshot, h2, hv, h3, h4]
    · right
      refine ⟨Status.EXECUTED, ?_, ?_, h2, rfl⟩ <;>
        simp [voteOnSnapshot, h2, hv, h3, h4, h5]

end Governance

namespace Governance

/-- C5: a vote on a proposal whose stored status is EXECUTED or EXPIRED is
rejected with the AlreadyFinalized outcome (the 400 Finalized response),
performs no store write and no external call, so the proposal's approval set
and status are unchanged: no operation leaves EXECUTED or EXPIRED. -/
theorem finalized_votes_rejected (validators : List (String × String)) (execOk : Bool)
    (store : Store) (id vid : String) (s : Sig) (entry : Entry)
    (hlook : lookupKey store id = some entry)
    (hstat : entry.prop.status = Status.EXECUTED ∨ entry.prop.status = Status.EXPIRED) :
    (castVote validators execOk store id vid s).outcome = .error .AlreadyFinalized ∧
    (castVote validators execOk store id vid s).store = store ∧
    (castVote validators execOk store id vid s).events = [] := by
  have hne : entry.prop.status ≠ Status.PENDING := by
    rcases hstat with h | h <;> simp [h]
  refine ⟨?_, ?_, ?_⟩ <;>
    simp [castVote, voteOnSnapshot, hlook, hne, applyWrite]

/-- Witness for finalized_votes_rejected: a concrete EXECUTED proposal. -/
theorem finalized_votes_rejected_witness :
    (castVote [("v1", "k1")] true
      [("p1", ⟨⟨"p1", "A", "pl", "admin", ["v1", "v2", "v3"], Status.EXECUTED⟩, none⟩)]
      "p1" "v1" (sign "k1" "m")).outcome = .error .AlreadyFinalized ∧
    (castVote [("v1", "k1")] true
      [("p1", ⟨⟨"p1", "A", "pl", "admin", ["v1", "v2", "v3"], Status.EXECUTED⟩, none⟩)]
      "p1" "v1" (sign "k1" "m")).store =
      [("p1", ⟨⟨"p1", "A", "pl", "admin", ["v1", "v2", "v3"], Status.EXECUTED⟩, none⟩)] ∧
    (castVote [("v1", "k1")] true
      [("p1", ⟨⟨"p1", "A", "pl", "admin", ["v1", "v2", "v3"], Status.EXECUTED⟩, none⟩)]
      "p1" "v1" (sign "k1" "m")).events = [] :=
  finalized_votes_rejected [("v1", "k1")] true
    [("p1", ⟨⟨"p1", "A", "pl", "admin", ["v1", "v2", "v3"], Status.EXECUTED⟩, none⟩)]
    "p1" "v1" (sign "k1" "m")
    ⟨⟨"p1", "A", "pl", "admin", ["v1", "v2", "v3"], Status.EXECUTED⟩, none⟩
    rfl (Or.inl rfl)

/-- C6: a second vote by a validator already present in the approval set of a
pending proposal is rejected with the DuplicateVote outcome (the 409 Voted
response) and the store is unchanged, so the approval set size is unaffected;
moreover every approve request preserves duplicate-freeness of the stored
approval list. -/
theorem duplicate_vote_rejected (validators : List (String × String)) (execOk : Bool)
    (store : Store) (id vid : String) (s : Sig) (entry : Entry)
    (hlook : lookupKey store id = some entry)
    (hpend : entry.prop.status = Status.PENDING)
    (hdup : vid ∈ entry.prop.approvals) :
    ((castVote validators execOk store id vid s).outcome = .error .DuplicateVote ∧
     (castVote validators execOk store id vid s).store = store) ∧
    (∀ (validators2 : List (String × String)) (execOk2 : Bool) (vid2 : String) (s2 : Sig)
       (e2 : Entry),
       entry.prop.approvals.Nodup →
       lookupKey (castVote validators2 execOk2 store id vid2 s2).store id = some e2 →
       e2.prop.approvals.Nodup) := by
  constructor
  · constructor <;> simp [castVote, voteOnSnapshot, hlook, hpend, hdup, applyWrite]
  · intro validators2 execOk2 vid2 s2 e2 hnd hlk
    rw [castVote_store, hlook] at hlk
    rcases voteOnSnapshot_cases validators2 execOk2 entry id vid2 s2 with
      ⟨hw, _⟩ | ⟨st, hw, _, hnotin, _⟩
    · rw [hw] at hlk
      simp only [applyWrite] at hlk
      rw [hlook] at hlk
      cases hlk
      exact hnd
    · rw [hw] at hlk
      simp only [applyWrite] at hlk
      rw [lookupKey_setKey_self] at hlk
      cases hlk
      have hc := List.Nodup.concat hnotin hnd
      rw [List.concat_eq_append] at hc
      exact hc

/-- Witness for duplicate_vote_rejected: validator v1 votes again on a
pending proposal that already records its approval. -/
theorem duplicate_vote_rejected_witness :
    (((castVote [("v1", "k1")] true
        [("p1", ⟨⟨"p1", "A", "pl", "admin", ["v1"], Status.PENDING⟩, some 86400⟩)]
        "p1" "v1" (sign "k1" "m")).outcome = .error .DuplicateVote ∧
      (castVote [("v1", "k1")] true
        [("p1", ⟨⟨"p1", "A", "pl", "admin", ["v1"], Status.PENDING⟩, some 86400⟩)]
        "p1" "v1" (sign "k1" "m")).store =
        [("p1", ⟨⟨"p1", "A", "pl", "admin", ["v1"], Status.PENDING⟩, some 86400⟩)]) ∧
     (∀ (validators2 : List (String × String)) (execOk2 : Bool) (vid2 : String) (s2 : Sig)
        (e2 : Entry),
        (["v1"] : List String).Nodup →
        lookupKey (castVote validators2 execOk2
          [("p1", ⟨⟨"p1", "A", "pl", "admin", ["v1"], Status.PENDING⟩, some 86400⟩)]
          "p1" vid2 s2).store "p1" = some e2 →
        e2.prop.approvals.Nodup)) :=
  duplicate_vote_rejected [("v1", "k1")] true
    [("p1", ⟨⟨"p1", "A", "pl", "admin", ["v1"], Status.PENDING⟩, some 86400⟩)]
    "p1" "v1" (sign "k1" "m")
    ⟨⟨"p1", "A", "pl", "admin", ["v1"], Status.PENDING⟩, some 86400⟩
    rfl rfl (by decide)

end Governance

namespace Governance

/-- C10: createProposal persists the new PENDING record with a 24 hour TTL
(SET with EX 86400), while the write-back of any successful vote is a SET
without EX, so the stored record of every proposal that accepted at least one
valid vote carries no expiry and persists indefinitely. -/
theorem vote_clears_ttl (store : Store) (id action payloadJson requestor : String) :
    (lookupKey (createProposal store id action payloadJson requestor) id =
      some ⟨⟨id, action, payloadJson, requestor, [], Status.PENDING⟩, some 86400⟩) ∧
    (∀ (store2 : Store) (validators : List (String × String)) (execOk : Bool)
        (id2 vid : String) (s : Sig) (st : Status),
      (castVote validators execOk store2 id2 vid s).outcome = .ok st →
      ∃ e, lookupKey (castVote validators execOk store2 id2 vid s).store id2 = some e ∧
        e.ttl = none) := by
  constructor
  · exact lookupKey_setKey_self store id _
  · intro store2 validators execOk id2 vid s st hok
    rw [castVote_outcome] at hok
    cases hsnap : lookupKey store2 id2 with
    | none => rw [hsnap] at hok; simp [voteOnSnapshot] at hok
    | some entry =>
      rw [hsnap] at hok
      rcases voteOnSnapshot_cases validators execOk entry id2 vid s with
        ⟨hw, err, herr⟩ | ⟨st2, hw, houtc, hnotin, hpend⟩
      · rw [herr] at hok; simp at hok
      · refine ⟨⟨{ entry.prop with approvals := entry.prop.approvals ++ [vid], status := st2 }, none⟩, ?_, rfl⟩
        rw [castVote_store, hsnap, hw]
        simp [applyWrite, lookupKey_setKey_self]

/-- Witness for vote_clears_ttl: a fresh proposal is stored with TTL 86400,
and after validator v1's successful vote the stored record has no TTL. -/
theorem vote_clears_ttl_witness :
    (lookupKey (createProposal [] "p1" "A" "pl" "admin") "p1" =
      some ⟨⟨"p1", "A", "pl", "admin", [], Status.PENDING⟩, some 86400⟩) ∧
    (∃ e, lookupKey (castVote [("v1", "k1")] true
        [("p1", ⟨⟨"p1", "A", "pl", "admin", [], Status.PENDING⟩, some 86400⟩)]
        "p1" "v1" (sign "k1" (canonicalMessage "p1" "A" "pl"))).store "p1" = some e ∧
      e.ttl = none) :=
  ⟨(vote_clears_ttl [] "p1" "A" "pl" "admin").1,
   (vote_clears_ttl [] "p1" "A" "pl" "admin").2
     [("p1", ⟨⟨"p1", "A", "pl", "admin", [], Status.PENDING⟩, some 86400⟩)]
     [("v1", "k1")] true "p1" "v1" (sign "k1" (canonicalMessage "p1" "A" "pl"))
     Status.PENDING rfl⟩

/-- Validator registry with three configured validators. -/
def validators3 : List (String × String) := [("v1", "k1"), ("v2", "k2"), ("v3", "k3")]

/-- A pending non-revocation proposal already recording two approvals. -/
def updateEntry2 : Entry :=
  ⟨⟨"pA", "UPDATE_POLICY", "plA", "admin", ["v1", "v2"], Status.PENDING⟩, some 86400⟩

/-- Store holding only updateEntry2. -/
def storeUpdate2 : Store := [("pA", updateEntry2)]

/-- Signature of validator v3 over the canonical message of proposal pA. -/
def sigUpd3 : Sig := sign "k3" (canonicalMessage "pA" "UPDATE_POLICY" "plA")

/-- C1 counterexample: on a pending proposal whose action is UPDATE_POLICY
with two recorded approvals, the third valid vote reaches the threshold k = 3
and transitions the status to EXECUTED, yet the request performs no Action
Executor call: the executor is not invoked for every action kind, only for
REVOKE_CREDENTIAL. -/
theorem threshold_invokes_executor_counterexample :
    (castVote validators3 true storeUpdate2 "pA" "v3" sigUpd3).outcome =
      .ok Status.EXECUTED ∧
    (castVote validators3 true storeUpdate2 "pA" "v3" sigUpd3).events.filter
      Event.isExecCall = [] :=
  ⟨rfl, rfl⟩

/-- C1 amended: for a pending proposal, a valid vote that brings the approval
count to the threshold k = 3 transitions the status to EXECUTED, and the
Action Executor is invoked exactly once with the proposal's action and
payload precisely when the action is REVOKE_CREDENTIAL (with the executor
call succeeding); any earlier valid vote leaves the status PENDING and
performs no executor call. -/
theorem threshold_execution (validators : List (String × String)) (store : Store)
    (id vid pub : String) (entry : Entry)
    (hlook : lookupKey store id = some entry)
    (hpend : entry.prop.status = Status.PENDING)
    (hnew : vid ∉ entry.prop.approvals)
    (hkey : lookupKey validators vid = some pub) :
    (entry.prop.approvals.length + 1 < THRESHOLD →
      (castVote validators true store id vid
        (sign pub (canonicalMessage id entry.prop.action entry.prop.payload))).outcome =
        .ok Status.PENDING ∧
      (castVote validators true store id vid
        (sign pub (canonicalMessage id entry.prop.action entry.prop.payload))).events.filter
        Event.isExecCall = []) ∧
    (THRESHOLD ≤ entry.prop.approvals.length + 1 →
      (castVote validators true store id vid
        (sign pub (canonicalMessage id entry.prop.action entry.prop.payload))).outcome =
        .ok Status.EXECUTED ∧
      (castVote validators true store id vid
        (sign pub (canonicalMessage id entry.prop.action entry.prop.payload))).events.filter
        Event.isExecCall =
        (if entry.prop.action = "REVOKE_CREDENTIAL" then
          [Event.execCall entry.prop.action entry.prop.payload] else [])) := by
  constructor
  · intro hlt
    have hnotle : ¬ THRESHOLD ≤ entry.prop.approvals.length + 1 := Nat.not_le.mpr hlt
    constructor <;>
      simp [castVote, voteOnSnapshot, hlook, hpend, hnew, hkey, cryptoVerify, sign,
        hnotle, Event.isExecCall]
  · intro hge
    by_cases h5 : entry.prop.action = "REVOKE_CREDENTIAL"
    · constructor <;>
        simp [castVote, voteOnSnapshot, hlook, hpend, hnew, hkey, cryptoVerify, sign,
          hge, h5, Event.isExecCall]
    · constructor <;>
        simp [castVote, voteOnSnapshot, hlook, hpend, hnew, hkey, cryptoVerify, sign,
          hge, h5, Event.isExecCall]

/-- A pending REVOKE_CREDENTIAL proposal already recording two approvals. -/
def revokeEntry2 : Entry :=
  ⟨⟨"pR", "REVOKE_CREDENTIAL", "plR", "admin", ["v1", "v2"], Status.PENDING⟩, some 86400⟩

/-- Store holding only revokeEntry2. -/
def storeRevoke2 : Store := [("pR", revokeEntry2)]

/-- Signature of validator v3 over the canonical message of proposal pR. -/
def sigRev3 : Sig := sign "k3" (canonicalMessage "pR" "REVOKE_CREDENTIAL" "plR")

/-- Witness for threshold_execution: the third valid vote on the pending
REVOKE_CREDENTIAL proposal pR executes it with exactly one executor call. -/
theorem threshold_execution_witness :
    (castVote validators3 true storeRevoke2 "pR" "v3"
      (sign "k3" (canonicalMessage "pR" revokeEntry2.prop.action
        revokeEntry2.prop.payload))).outcome = .ok Status.EXECUTED ∧
    (castVote validators3 true storeRevoke2 "pR" "v3"
      (sign "k3" (canonicalMessage "pR" revokeEntry2.prop.action
        revokeEntry2.prop.payload))).events.filter Event.isExecCall =
      [Event.execCall "REVOKE_CREDENTIAL" "plR"] := by
  have h := (threshold_execution validators3 storeRevoke2 "pR" "v3" "k3" revokeEntry2
    rfl rfl (by decide) rfl).2 (by decide)
  simpa [revokeEntry2] using h

/-- A pending non-revocation proposal with an empty approval list. -/
def freshEntry : Entry :=
  ⟨⟨"pL", "UPDATE_POLICY", "plL", "admin", [], Status.PENDING⟩, some 86400⟩

/-- Store holding only freshEntry. -/
def storeFresh : Store := [("pL", freshEntry)]

/-- Signature of validator v1 over the canonical message of proposal pL. -/
def sigL1 : Sig := sign "k1" (canonicalMessage "pL" "UPDATE_POLICY" "plL")

/-- Signature of validator v2 over the canonical message of proposal pL. -/
def sigL2 : Sig := sign "k2" (canonicalMessage "pL" "UPDATE_POLICY" "plL")

/-- C2 failing execution: the approve handler is a GET, in-memory mutate, SET
sequence with no conditional check, so the interleaving in which two valid
votes both GET the record before either SET loses the first vote: the final
record carries only v2's approval, whereas the same two votes run one after
the other record both.  This refutes the claim that every proposal mutation
is performed as a single atomic conditional update. -/
theorem read_modify_write_loses_vote :
    lookupKey (interleavedVotes validators3 true storeFresh "pL" "v1" "v2" sigL1 sigL2)
      "pL" =
      some ⟨⟨"pL", "UPDATE_POLICY", "plL", "admin", ["v2"], Status.PENDING⟩, none⟩ ∧
    lookupKey (castVote validators3 true
        (castVote validators3 true storeFresh "pL" "v1" sigL1).store
        "pL" "v2" sigL2).store "pL" =
      some ⟨⟨"pL", "UPDATE_POLICY", "plL", "admin", ["v1", "v2"], Status.PENDING⟩, none⟩ :=
  ⟨rfl, rfl⟩

/-- C3 failing execution: on the threshold vote of a REVOKE_CREDENTIAL
proposal the handler awaits the Action Executor call first and only then
writes the EXECUTED record, so the executor call precedes the commit in the
effect sequence; and when the executor call fails the handler throws before
its SET, so neither the vote nor the EXECUTED status is ever committed: the
store is unchanged and the request ends in the 500 handler. -/
theorem executor_called_before_commit :
    (castVote validators3 true storeRevoke2 "pR" "v3" sigRev3).events =
      [Event.execCall "REVOKE_CREDENTIAL" "plR",
       Event.storeWrite "pR"
         ⟨⟨"pR", "REVOKE_CREDENTIAL", "plR", "admin", ["v1", "v2", "v3"],
           Status.EXECUTED⟩, none⟩] ∧
    (castVote validators3 false storeRevoke2 "pR" "v3" sigRev3).store = storeRevoke2 ∧
    (castVote validators3 false storeRevoke2 "pR" "v3" sigRev3).outcome =
      .error .InternalError :=
  ⟨rfl, rfl, rfl⟩

/-- C8 failing execution: a vote whose validatorId is not a configured
validator makes the handler dereference the publicKey field of undefined; the
thrown TypeError reaches the centralized error handler, so the response is
the generic 500 Internal Error rather than a distinct UnknownValidator
rejection. -/
theorem unknown_validator_generic_500 :
    (castVote validators3 true storeFresh "pL" "v9" (sign "k9" "m")).outcome =
      .error .InternalError ∧
    (castVote validators3 true storeFresh "pL" "v9" (sign "k9" "m")).store = storeFresh :=
  ⟨rfl, rfl⟩

end Governance

namespace Governance

/-- Data of the one-character colon string. -/
theorem colon_data : (":" : String).data = [':'] := rfl

/-- Two character lists that are colon-free and distinct stay distinct after
appending a colon and arbitrary tails: the part before the first colon is
determined. -/
theorem append_colon_ne : ∀ (a b r s : List Char),
    ':' ∉ a → ':' ∉ b → a ≠ b → a ++ ':' :: r ≠ b ++ ':' :: s
  | [], [], _, _, _, _, hab => absurd rfl hab
  | [], c :: bs, r, s, _, hb, _ => by
    intro h
    simp only [List.nil_append, List.cons_append, List.cons.injEq] at h
    exact hb (h.1 ▸ List.mem_cons_self c bs)
  | c :: as, [], r, s, ha, _, _ => by
    intro h
    simp only [List.cons_append, List.nil_append, List.cons.injEq] at h
    exact ha (h.1 ▸ List.mem_cons_self c as)
  | c :: as, d :: bs, r, s, ha, hb, hab => by
    intro h
    simp only [List.cons_append, List.cons.injEq] at h
    obtain ⟨hcd, htail⟩ := h
    subst hcd
    have ha' : ':' ∉ as := fun hx => ha (List.mem_cons_of_mem _ hx)
    have hb' : ':' ∉ bs := fun hx => hb (List.mem_cons_of_mem _ hx)
    have hab' : as ≠ bs := fun he => hab (by rw [he])
    exact append_colon_ne as bs r s ha' hb' hab' htail

/-- Canonical messages of proposals with distinct colon-free ids differ, for
every choice of actions and payloads. -/
theorem canonicalMessage_ne_of_id_ne (id1 id2 a1 a2 p1 p2 : String)
    (h1 : ':' ∉ id1.data) (h2 : ':' ∉ id2.data) (hne : id1 ≠ id2) :
    canonicalMessage id1 a1 p1 ≠ canonicalMessage id2 a2 p2 := by
  intro h
  have hd := congrArg String.data h
  simp only [canonicalMessage, String.data_append, List.append_assoc, colon_data,
    List.singleton_append] at hd
  exact append_colon_ne id1.data id2.data _ _ h1 h2
    (fun he => hne (String.ext he)) hd

/-- Canonical messages of the same proposal id and action but different
payload serializations differ. -/
theorem canonicalMessage_ne_of_payload_ne (id a p1 p2 : String) (hne : p1 ≠ p2) :
    canonicalMessage id a p1 ≠ canonicalMessage id a p2 := by
  intro h
  have hd := congrArg String.data h
  simp only [canonicalMessage, String.data_append, List.append_assoc] at hd
  have h1 := List.append_cancel_left hd
  have h2 := List.append_cancel_left h1
  have h3 := List.append_cancel_left h2
  have h4 := List.append_cancel_left h3
  exact hne (String.ext h4)

/-- A signature produced for one message never verifies against another. -/
theorem cryptoVerify_sign_ne (pub m1 m2 : String) (h : m1 ≠ m2) :
    cryptoVerify pub m2 (sign pub m1) = false := by
  simp [cryptoVerify, sign, h]

/-- C7: the signed message binds the proposal id, action and payload.  A
signature valid for proposal A's canonical message is rejected as
InvalidSignature, with the store unchanged, when submitted as a vote on any
other proposal B (proposal ids are colon-free UUIDs, so distinct ids give
distinct messages), and likewise when the payload stored for A no longer
serializes to the bytes that were signed. -/
theorem signature_binding (validators : List (String × String)) (execOk : Bool)
    (store : Store) (idA idB vid pub actA plA : String) (eB : Entry)
    (hcolA : ':' ∉ idA.data) (hcolB : ':' ∉ idB.data) (hne : idA ≠ idB)
    (hlookB : lookupKey store idB = some eB)
    (hpendB : eB.prop.status = Status.PENDING)
    (hnewB : vid ∉ eB.prop.approvals)
    (hkey : lookupKey validators vid = some pub) :
    ((castVote validators execOk store idB vid
        (sign pub (canonicalMessage idA actA plA))).outcome =
        .error .InvalidSignature ∧
     (castVote validators execOk store idB vid
        (sign pub (canonicalMessage idA actA plA))).store = store) ∧
    (∀ (storeT : Store) (eT : Entry),
      lookupKey storeT idA = some eT →
      eT.prop.status = Status.PENDING →
      vid ∉ eT.prop.approvals →
      eT.prop.action = actA →
      eT.prop.payload ≠ plA →
      (castVote validators execOk storeT idA vid
        (sign pub (canonicalMessage idA actA plA))).outcome =
        .error .InvalidSignature ∧
      (castVote validators execOk storeT idA vid
        (sign pub (canonicalMessage idA actA plA))).store = storeT) := by
  constructor
  · have hmsg : canonicalMessage idA actA plA ≠
        canonicalMessage idB eB.prop.action eB.prop.payload :=
      canonicalMessage_ne_of_id_ne idA idB actA eB.prop.action plA eB.prop.payload
        hcolA hcolB hne
    have hver := cryptoVerify_sign_ne pub _ _ hmsg
    constructor <;>
      simp [castVote, voteOnSnapshot, hlookB, hpendB, hnewB, hkey, hver, applyWrite]
  · intro storeT eT hlookT hpendT hnewT hact hpl
    have hmsg : canonicalMessage idA actA plA ≠
        canonicalMessage idA eT.prop.action eT.prop.payload := by
      rw [hact]
      exact canonicalMessage_ne_of_payload_ne idA actA plA eT.prop.payload
        (fun he => hpl he.symm)
    have hver := cryptoVerify_sign_ne pub _ _ hmsg
    constructor <;>
      simp [castVote, voteOnSnapshot, hlookT, hpendT, hnewT, hkey, hver, applyWrite]

/-- Witness for signature_binding: validator v1's signature for proposal pA
is rejected on proposal pB, and on pA after its payload was tampered. -/
theorem signature_binding_witness :
    (((castVote validators3 true
        [("pB", ⟨⟨"pB", "UPDATE_POLICY", "plB", "admin", [], Status.PENDING⟩, some 86400⟩)]
        "pB" "v1" (sign "k1" (canonicalMessage "pA" "UPDATE_POLICY" "plA"))).outcome =
        .error .InvalidSignature ∧
      (castVote validators3 true
        [("pB", ⟨⟨"pB", "UPDATE_POLICY", "plB", "admin", [], Status.PENDING⟩, some 86400⟩)]
        "pB" "v1" (sign "k1" (canonicalMessage "pA" "UPDATE_POLICY" "plA"))).store =
        [("pB", ⟨⟨"pB", "UPDATE_POLICY", "plB", "admin", [], Status.PENDING⟩, some 86400⟩)]) ∧
     (∀ (storeT : Store) (eT : Entry),
      lookupKey storeT "pA" = some eT →
      eT.prop.status = Status.PENDING →
      "v1" ∉ eT.prop.approvals →
      eT.prop.action = "UPDATE_POLICY" →
      eT.prop.payload ≠ "plA" →
      (castVote validators3 true storeT "pA" "v1"
        (sign "k1" (canonicalMessage "pA" "UPDATE_POLICY" "plA"))).outcome =
        .error .InvalidSignature ∧
      (castVote validators3 true storeT "pA" "v1"
        (sign "k1" (canonicalMessage "pA" "UPDATE_POLICY" "plA"))).store = storeT)) :=
  signature_binding validators3 true
    [("pB", ⟨⟨"pB", "UPDATE_POLICY", "plB", "admin", [], Status.PENDING⟩, some 86400⟩)]
    "pA" "pB" "v1" "k1" "UPDATE_POLICY" "plA"
    ⟨⟨"pB", "UPDATE_POLICY", "plB", "admin", [], Status.PENDING⟩, some 86400⟩
    (by decide) (by decide) (by decide) rfl rfl (by decide) rfl

end Governance

namespace Gateway

/-- Sessions store holding one REQUEST_SENT session for exchange X. -/
def sessions0 : List (String × Session) := [("X", ⟨"REQUEST_SENT", "alice"⟩)]

/-- C4 failing execution: the webhook handler checks only that a session
record exists and that the event asserts success, never that the stored
status is still REQUEST_SENT.  After the first verified event for exchange X
the session is already VERIFIED_AND_LOGGED, yet a second delivery of the same
event appends a second audit entry: processing the event twice is not the
same as processing it once. -/
theorem duplicate_webhook_appends_twice :
    (webhook sessions0 [] "verified" "X" true "u1" "t1" "b1").2.length = 1 ∧
    lookupKey (webhook sessions0 [] "verified" "X" true "u1" "t1" "b1").1 "X" =
      some ⟨"VERIFIED_AND_LOGGED", "alice"⟩ ∧
    (webhook (webhook sessions0 [] "verified" "X" true "u1" "t1" "b1").1
      (webhook sessions0 [] "verified" "X" true "u1" "t1" "b1").2
      "verified" "X" true "u2" "t2" "b2").2.length = 2 :=
  ⟨rfl, rfl, rfl⟩

/-- Unfolding of one successful append inside appendSeq. -/
theorem appendSeq_cons (log : List AuditEntry) (u t b : String)
    (rest : List (String × String × String)) :
    appendSeq log ((u, t, b) :: rest) =
      ((appendSeq (log ++ [⟨u, t, b⟩]) rest).1,
       (log.length + 1) :: (appendSeq (log ++ [⟨u, t, b⟩]) rest).2) := by
  simp [appendSeq, logEntries]

/-- Structure of a run of appends: the receipts are the consecutive indices
starting right after the initial length, the initial log is preserved as a
prefix, and exactly one entry is added per append. -/
theorem appendSeq_spec : ∀ (reqs : List (String × String × String))
    (log : List AuditEntry),
    (appendSeq log reqs).2 = List.range' (log.length + 1) reqs.length ∧
    (appendSeq log reqs).1.take log.length = log ∧
    (appendSeq log reqs).1.length = log.length + reqs.length
  | [], log => by simp [appendSeq]
  | (u, t, b) :: rest, log => by
    obtain ⟨ih1, ih2, ih3⟩ := appendSeq_spec rest (log ++ [⟨u, t, b⟩])
    rw [appendSeq_cons]
    simp only [List.length_append, List.length_cons, List.length_nil] at ih1 ih2 ih3
    refine ⟨?_, ?_, ?_⟩
    · simp only [List.length_cons, List.range'_succ, ih1]
    · have heq : (appendSeq (log ++ [⟨u, t, b⟩]) rest).1.take log.length =
          ((appendSeq (log ++ [⟨u, t, b⟩]) rest).1.take (log.length + 1)).take log.length := by
        rw [List.take_take]
        congr 1
        omega
      rw [heq, ih2]
      exact List.take_left log [(⟨u, t, b⟩ : AuditEntry)]
    · simp only [List.length_cons]
      omega

/-- The consecutive index list is a chain where each element is one more
than its predecessor. -/
theorem chain'_consec_range' (s : Nat) : ∀ n : Nat,
    List.Chain' (fun a b => b = a + 1) (List.range' s n)
  | 0 => by simp
  | n + 1 => by
    rw [List.range'_succ]
    exact List.chain_succ_range' s n 1

/-- C9: every append through the transparency-log endpoint returns an index,
and over any sequence of appends the returned indices are exactly
log.length + 1, log.length + 2, ...: strictly increasing, gap-free (each
index is one greater than the previous) and duplicate-free; previously
appended entries are preserved unchanged in place (the old log is a prefix of
the new one) and each append adds exactly one entry — the service exposes no
delete or reorder operation. -/
theorem audit_log_indices (log : List AuditEntry)
    (reqs : List (String × String × String)) :
    (appendSeq log reqs).2 = List.range' (log.length + 1) reqs.length ∧
    List.Chain' (fun a b => b = a + 1) (appendSeq log reqs).2 ∧
    List.Pairwise (· < ·) (appendSeq log reqs).2 ∧
    (appendSeq log reqs).2.Nodup ∧
    (appendSeq log reqs).1.take log.length = log ∧
    (appendSeq log reqs).1.length = log.length + reqs.length := by
  obtain ⟨h1, h2, h3⟩ := appendSeq_spec reqs log
  refine ⟨h1, ?_, ?_, ?_, h2, h3⟩
  · rw [h1]; exact chain'_consec_range' _ _
  · rw [h1]; exact List.pairwise_lt_range' ..
  · rw [h1]; exact List.nodup_range' _ _

end Gateway
